import Mathlib

/-!
Verification of the `AdvancedGestureClassifier` from
`src/frontend/src/components/gesture/AdvancedGestureClassifier.tsx`.

The classifier is shallowly embedded over exact rational arithmetic (`ℚ`):
JavaScript numbers become rationals, `Landmark[]` becomes `List Landmark`,
the two mutable history arrays of the class become an explicit
`ClassifierState` threaded through `classifyGesture`, and the TypeScript
`null` results become `Option`.  The two transcendental library functions
used by the source (`Math.sqrt`, `Math.atan2`) are replaced by rational
surrogates `qSqrt` and `qAtan2` that are exact on the inputs every concrete
fixture below exercises; all universally quantified theorems in this file
hold for arbitrary values of these two functions (they only depend on the
branching structure of the classifier), so nothing below depends on the
approximate values of the surrogates.
-/

attribute [local semireducible] Rat.add Rat.mul Rat.sub Rat.inv

set_option maxRecDepth 100000

/-- Fuel-driven Newton iteration computing the floor integer square root. -/
def isqrtIter (n : ℕ) : ℕ → ℕ → ℕ
  | 0, x => x
  | fuel+1, x =>
    let y := (x + n / x) / 2
    if y < x then isqrtIter n fuel y else x

/-- Floor integer square root (64 Newton steps suffice for every literal used
in this file, and the iteration stops early as soon as it is stationary). -/
def isqrt (n : ℕ) : ℕ := if n ≤ 1 then n else isqrtIter n 64 n

/-- Rational stand-in for `Math.sqrt` on nonnegative rationals: with `q = a / b`
in lowest terms it returns `isqrt (a * b) / b`, which equals the exact real
square root whenever `a * b` is a perfect square (in particular whenever `q`
is the square of a rational) and a floor-style approximation otherwise.
Negative inputs (which the source never produces: it only takes square roots
of sums of squares) map to `0`. -/
def qSqrt (q : ℚ) : ℚ :=
  if q ≤ 0 then 0 else (isqrt (q.num.toNat * q.den) : ℚ) / (q.den : ℚ)

/-- Rational approximation of `arctan`, used off the axes by `qAtan2`. -/
def qAtanApprox (t : ℚ) : ℚ := t / (1 + (28/100) * t^2)

/-- Rational stand-in for `Math.atan2 y x`.  It is exact on the positive
x-axis (`qAtan2 0 x = 0` when `0 < x`), the only region in which any concrete
fixture below compares an angle against a threshold; elsewhere it returns a
rational approximation with the sign and quadrant behaviour of `atan2`.
Every universally quantified theorem below holds for arbitrary values of this
function. -/
def qAtan2 (y x : ℚ) : ℚ :=
  if 0 < x then qAtanApprox (y / x)
  else if x = 0 then (if 0 < y then 157/100 else if y < 0 then -(157/100) else 0)
  else if 0 ≤ y then 314/100 + qAtanApprox (y / x)
  else -(314/100) + qAtanApprox (y / x)

/-- A MediaPipe-style hand landmark: a 3-D point. -/
structure Landmark where
  x : ℚ
  y : ℚ
  z : ℚ
deriving DecidableEq

/-- The record built by `calculateAdvancedFingerStates`. -/
structure AdvancedFingerStates where
  thumbExtended : Bool
  thumbUp : Bool
  thumbCurled : Bool
  indexExtended : Bool
  indexCurled : Bool
  middleExtended : Bool
  middleCurled : Bool
  ringExtended : Bool
  ringCurled : Bool
  pinkyExtended : Bool
  pinkyCurled : Bool
  palmFacing : Bool
  handOrientation : String
  fingerAngles : List ℚ
  fingerDistances : List ℚ
  handOpenness : ℚ
  wristAngle : ℚ
deriving DecidableEq

/-- The result record of the classifier; the two optional fields are unset
(`none`) in every result produced by `primaryClassification` and only filled
in by the confusion-group second pass. -/
structure GestureClassificationResult where
  primaryGesture : String
  confidence : ℚ
  secondaryClassification : Option String
  confusionGroup : Option String
  geometricFeatures : List ℚ
  stabilityScore : ℚ
deriving DecidableEq

/-- Result of `secondaryClassification` (the anonymous object literal of the
source). -/
structure SecondaryResult where
  gesture : String
  confidence : ℚ
  method : String
  group : String
deriving DecidableEq

/-- The mutable per-instance state of the class: the fields `gestureHistory`
and `confidenceHistory`. -/
structure ClassifierState where
  gestureHistory : List String
  confidenceHistory : List ℚ
deriving DecidableEq

/-- State of a freshly constructed `AdvancedGestureClassifier`. -/
def emptyState : ClassifierState := ⟨[], []⟩

/-- Field `stabilityThreshold = 0.85`. -/
def stabilityThreshold : ℚ := 85/100

/-- Field `historySize = 15`. -/
def historySize : ℕ := 15

/-- `CONFUSION_GROUPS`, in `Object.values` order (group1 … group8). -/
def CONFUSION_GROUPS : List (List String) :=
  [["D", "R", "U"], ["T", "K", "D", "I"], ["S", "M", "N"], ["C", "O"],
   ["B", "F"], ["P", "Q"], ["V", "W"], ["G", "H"]]

/-- Indexing `landmarks[i]`; out-of-range access (which the source never
performs behind the length-21 guard) yields the origin. -/
def nth (lms : List Landmark) (i : ℕ) : Landmark := lms.getD i ⟨0, 0, 0⟩

/-- The running minimum over all x coordinates computed by the `forEach` loop
of `normalizeLandmarks`, seeded with the wrist's x. -/
def minXOf (landmarks : List Landmark) : ℚ :=
  landmarks.foldl (fun m p => min m p.x) (nth landmarks 0).x

/-- The running maximum over all x coordinates, seeded with the wrist's x. -/
def maxXOf (landmarks : List Landmark) : ℚ :=
  landmarks.foldl (fun m p => max m p.x) (nth landmarks 0).x

/-- The running minimum over all y coordinates, seeded with the wrist's y. -/
def minYOf (landmarks : List Landmark) : ℚ :=
  landmarks.foldl (fun m p => min m p.y) (nth landmarks 0).y

/-- The running maximum over all y coordinates, seeded with the wrist's y. -/
def maxYOf (landmarks : List Landmark) : ℚ :=
  landmarks.foldl (fun m p => max m p.y) (nth landmarks 0).y

/-- `Math.max(scaleX, scaleY)`: the larger bounding-box extent. -/
def scale0Of (landmarks : List Landmark) : ℚ :=
  max (maxXOf landmarks - minXOf landmarks) (maxYOf landmarks - minYOf landmarks)

/-- The divisor of `normalizeLandmarks`, including the `|| 1` fallback for a
degenerate bounding box. -/
def scaleOf (landmarks : List Landmark) : ℚ :=
  if scale0Of landmarks = 0 then 1 else scale0Of landmarks

/-- `normalizeLandmarks`: translate by the wrist (index 0), then divide by the
larger bounding-box extent, with the `|| 1` fallback when the box is
degenerate. -/
def normalizeLandmarks (landmarks : List Landmark) : List Landmark :=
  landmarks.map fun p =>
    ⟨(p.x - (nth landmarks 0).x) / scaleOf landmarks,
     (p.y - (nth landmarks 0).y) / scaleOf landmarks,
     (p.z - (nth landmarks 0).z) / scaleOf landmarks⟩

/-- The fingertip indices `[4, 8, 12, 16, 20]`. -/
def fingerTips : List ℕ := [4, 8, 12, 16, 20]

/-- The finger base-joint indices `[1, 5, 9, 13, 17]`. -/
def fingerBases : List ℕ := [1, 5, 9, 13, 17]

/-- The MCP knuckle indices `[2, 5, 9, 13, 17]` used for the curvature sum. -/
def knuckles : List ℕ := [2, 5, 9, 13, 17]

/-- `extractGeometricFeatures`: 5 three-dimensional tip-to-wrist distances,
then 5 tip-relative-to-base angles, then 4 adjacent inter-tip planar
distances, then the single curvature scalar. -/
def extractGeometricFeatures (landmarks : List Landmark) : List ℚ :=
  let palmCenter := nth landmarks 0
  let tipDists := fingerTips.map fun tipIndex =>
    let tip := nth landmarks tipIndex
    qSqrt ((tip.x - palmCenter.x)^2 + (tip.y - palmCenter.y)^2 +
      (tip.z - palmCenter.z)^2)
  let tipAngles := (fingerTips.zip fingerBases).map fun ib =>
    let tip := nth landmarks ib.1
    let base := nth landmarks ib.2
    qAtan2 (tip.y - base.y) (tip.x - base.x)
  let interDists := (fingerTips.zip fingerTips.tail).map fun ab =>
    let tip1 := nth landmarks ab.1
    let tip2 := nth landmarks ab.2
    qSqrt ((tip2.x - tip1.x)^2 + (tip2.y - tip1.y)^2)
  let curvature := ((List.range 3).map fun j =>
    let p1 := nth landmarks (knuckles.getD j 0)
    let p2 := nth landmarks (knuckles.getD (j+1) 0)
    let p3 := nth landmarks (knuckles.getD (j+2) 0)
    |qAtan2 (p3.y - p2.y) (p3.x - p2.x) - qAtan2 (p2.y - p1.y) (p2.x - p1.x)|).sum
  tipDists ++ tipAngles ++ interDists ++ [curvature]

/-- `calculateFingerAngles`: `atan2` of each tip minus its base joint. -/
def calculateFingerAngles (landmarks : List Landmark) : List ℚ :=
  (fingerBases.zip fingerTips).map fun bt =>
    let base := nth landmarks bt.1
    let tip := nth landmarks bt.2
    qAtan2 (tip.y - base.y) (tip.x - base.x)

/-- `calculateFingerDistances`: planar tip-to-wrist distances. -/
def calculateFingerDistances (landmarks : List Landmark) : List ℚ :=
  let palmCenter := nth landmarks 0
  fingerTips.map fun tipIndex =>
    let tip := nth landmarks tipIndex
    qSqrt ((tip.x - palmCenter.x)^2 + (tip.y - palmCenter.y)^2)

/-- `calculateHandOrientation`: middle-finger base x versus wrist x with a
0.02 deadband. -/
def calculateHandOrientation (landmarks : List Landmark) : String :=
  let wrist := nth landmarks 0
  let middleFinger := nth landmarks 9
  if wrist.x + 2/100 < middleFinger.x then "right"
  else if middleFinger.x < wrist.x - 2/100 then "left"
  else "unknown"

/-- `calculateHandOpenness`: mean planar tip-to-wrist distance. -/
def calculateHandOpenness (landmarks : List Landmark) : ℚ :=
  let palmCenter := nth landmarks 0
  let totalDistance := (fingerTips.map fun tipIndex =>
    let tip := nth landmarks tipIndex
    qSqrt ((tip.x - palmCenter.x)^2 + (tip.y - palmCenter.y)^2)).sum
  totalDistance / (fingerTips.length : ℚ)

/-- `calculateWristAngle`: angle of middle-finger base minus wrist. -/
def calculateWristAngle (landmarks : List Landmark) : ℚ :=
  let wrist := nth landmarks 0
  let middleBase := nth landmarks 9
  qAtan2 (middleBase.y - wrist.y) (middleBase.x - wrist.x)

/-- `calculateAdvancedFingerStates`: all per-finger flags (note that the
non-thumb extension/curl comparisons use the PIP joints 6, 10, 14, 18) plus
the derived scalar features. -/
def calculateAdvancedFingerStates (landmarks : List Landmark) :
    AdvancedFingerStates :=
  { thumbExtended := decide ((nth landmarks 3).x + 15/1000 < (nth landmarks 4).x)
    thumbUp := decide ((nth landmarks 4).y < (nth landmarks 3).y - 1/100)
    thumbCurled := decide ((nth landmarks 3).y + 15/1000 < (nth landmarks 4).y)
    indexExtended := decide ((nth landmarks 8).y < (nth landmarks 6).y - 15/1000)
    indexCurled := decide ((nth landmarks 6).y + 15/1000 < (nth landmarks 8).y)
    middleExtended := decide ((nth landmarks 12).y < (nth landmarks 10).y - 15/1000)
    middleCurled := decide ((nth landmarks 10).y + 15/1000 < (nth landmarks 12).y)
    ringExtended := decide ((nth landmarks 16).y < (nth landmarks 14).y - 15/1000)
    ringCurled := decide ((nth landmarks 14).y + 15/1000 < (nth landmarks 16).y)
    pinkyExtended := decide ((nth landmarks 20).y < (nth landmarks 18).y - 15/1000)
    pinkyCurled := decide ((nth landmarks 18).y + 15/1000 < (nth landmarks 20).y)
    palmFacing := decide ((nth landmarks 0).z + 1/100 < (nth landmarks 9).z)
    handOrientation := calculateHandOrientation landmarks
    fingerAngles := calculateFingerAngles landmarks
    fingerDistances := calculateFingerDistances landmarks
    handOpenness := calculateHandOpenness landmarks
    wristAngle := calculateWristAngle landmarks }

/-- `primaryClassification`: the ordered rule list for the letters A–F.  The
C rule keeps the source's fall-through shape: its finger-state guard opens a
block whose only exit is the inner curvature test, so a matching guard with
curvature ≤ 0.5 falls through to the D rule. -/
def primaryClassification (fingerStates : AdvancedFingerStates)
    (geometricFeatures : List ℚ) : Option GestureClassificationResult :=
  if ¬fingerStates.indexExtended ∧ ¬fingerStates.middleExtended ∧
      ¬fingerStates.ringExtended ∧ ¬fingerStates.pinkyExtended ∧
      fingerStates.thumbExtended ∧ fingerStates.handOpenness < 3/10 then
    some ⟨"A", 92/100, none, none, geometricFeatures, 0⟩
  else if fingerStates.indexExtended ∧ fingerStates.middleExtended ∧
      fingerStates.ringExtended ∧ fingerStates.pinkyExtended ∧
      ¬fingerStates.thumbExtended ∧ 7/10 < fingerStates.handOpenness then
    some ⟨"B", 90/100, none, none, geometricFeatures, 0⟩
  else if fingerStates.thumbUp ∧ fingerStates.indexCurled ∧
      4/10 < fingerStates.handOpenness ∧ fingerStates.handOpenness < 8/10 ∧
      5/10 < geometricFeatures.getD (geometricFeatures.length - 1) 0 then
    some ⟨"C", 88/100, none, none, geometricFeatures, 0⟩
  else if fingerStates.indexExtended ∧ ¬fingerStates.middleExtended ∧
      ¬fingerStates.ringExtended ∧ ¬fingerStates.pinkyExtended ∧
      fingerStates.thumbExtended then
    some ⟨"D", 89/100, none, none, geometricFeatures, 0⟩
  else if ¬fingerStates.indexExtended ∧ ¬fingerStates.middleExtended ∧
      ¬fingerStates.ringExtended ∧ ¬fingerStates.pinkyExtended ∧
      fingerStates.thumbCurled then
    some ⟨"E", 85/100, none, none, geometricFeatures, 0⟩
  else if fingerStates.thumbExtended ∧ fingerStates.indexCurled ∧
      fingerStates.middleExtended ∧ fingerStates.ringExtended ∧
      fingerStates.pinkyExtended then
    some ⟨"F", 87/100, none, none, geometricFeatures, 0⟩
  else none

/-- `secondaryClassification`: the three discriminator blocks (groups
{D,R,U}, {T,K,D,I}, {S,M,N}); within a block the branches are an
if/else-if chain, and a block whose guards all fail falls through to the
next block, exactly as in the source. -/
def secondaryClassification (primaryGesture : String)
    (fingerStates : AdvancedFingerStates) (geometricFeatures : List ℚ) :
    Option SecondaryResult :=
  if (["D", "R", "U"] : List String).contains primaryGesture ∧
      -(5/10) < fingerStates.fingerAngles.getD 1 0 ∧
      fingerStates.fingerAngles.getD 1 0 < 5/10 ∧
      5/100 < geometricFeatures.getD 0 0 then
    some ⟨"D", 91/100, "angle_analysis", "DRU"⟩
  else if (["D", "R", "U"] : List String).contains primaryGesture ∧
      5/10 < fingerStates.fingerAngles.getD 1 0 ∧ fingerStates.middleExtended then
    some ⟨"R", 89/100, "angle_analysis", "DRU"⟩
  else if (["D", "R", "U"] : List String).contains primaryGesture ∧
      fingerStates.fingerAngles.getD 1 0 < -(5/10) ∧ fingerStates.middleExtended then
    some ⟨"U", 88/100, "angle_analysis", "DRU"⟩
  else if (["T", "K", "D", "I"] : List String).contains primaryGesture ∧
      |geometricFeatures.getD 0 0 - geometricFeatures.getD 1 0| < 2/100 ∧
      ¬fingerStates.indexExtended then
    some ⟨"T", 90/100, "distance_analysis", "TKDI"⟩
  else if (["T", "K", "D", "I"] : List String).contains primaryGesture ∧
      fingerStates.indexExtended ∧ fingerStates.middleExtended ∧
      5/100 < |geometricFeatures.getD 0 0 - geometricFeatures.getD 1 0| then
    some ⟨"K", 87/100, "distance_analysis", "TKDI"⟩
  else if (["T", "K", "D", "I"] : List String).contains primaryGesture ∧
      fingerStates.indexExtended ∧ ¬fingerStates.middleExtended then
    some ⟨"I", 89/100, "distance_analysis", "TKDI"⟩
  else if (["S", "M", "N"] : List String).contains primaryGesture ∧
      fingerStates.handOpenness < 2/10 ∧ ¬fingerStates.thumbExtended then
    some ⟨"S", 92/100, "openness_analysis", "SMN"⟩
  else if (["S", "M", "N"] : List String).contains primaryGesture ∧
      fingerStates.handOpenness < 3/10 ∧ fingerStates.thumbExtended then
    some ⟨"M", 88/100, "openness_analysis", "SMN"⟩
  else if (["S", "M", "N"] : List String).contains primaryGesture ∧
      fingerStates.handOpenness < 4/10 then
    some ⟨"N", 86/100, "openness_analysis", "SMN"⟩
  else none

/-- `isInConfusionGroup`. -/
def isInConfusionGroup (gesture : String) : Bool :=
  CONFUSION_GROUPS.any fun group => group.contains gesture

/-- Steps 1–3 of `classifyGesture`: normalization, feature extraction,
primary classification and the confusion-group second pass — everything
before the (stateful) stability analysis. -/
def computeFinal (landmarks : List Landmark) : Option GestureClassificationResult :=
  let normalizedLandmarks := normalizeLandmarks landmarks
  let geometricFeatures := extractGeometricFeatures normalizedLandmarks
  let fingerStates := calculateAdvancedFingerStates normalizedLandmarks
  match primaryClassification fingerStates geometricFeatures with
  | none => none
  | some primaryResult =>
    if isInConfusionGroup primaryResult.primaryGesture then
      match secondaryClassification primaryResult.primaryGesture fingerStates
          geometricFeatures with
      | some secondaryResult =>
        some { primaryResult with
          primaryGesture := secondaryResult.gesture
          confidence := (primaryResult.confidence + secondaryResult.confidence) / 2
          secondaryClassification := some secondaryResult.method
          confusionGroup := some secondaryResult.group }
      | none => some primaryResult
    else some primaryResult

/-- The history push performed at the top of `calculateStabilityScore`:
append to both arrays, then drop the oldest entry of each once the length
exceeds `historySize`. -/
def pushHistory (s : ClassifierState) (gesture : String) (confidence : ℚ) :
    ClassifierState :=
  if historySize < (s.gestureHistory ++ [gesture]).length then
    ⟨(s.gestureHistory ++ [gesture]).tail, (s.confidenceHistory ++ [confidence]).tail⟩
  else ⟨s.gestureHistory ++ [gesture], s.confidenceHistory ++ [confidence]⟩

/-- The last `n` elements of a list — `Array.prototype.slice(-n)`. -/
def lastN (l : List α) (n : ℕ) : List α := l.drop (l.length - n)

/-- The score computation of `calculateStabilityScore`, evaluated on the
already-pushed history: consistency over the last 5 gestures, mean of the
last 5 confidences, combined 0.6 / 0.4. -/
def stabilityScoreOf (s : ClassifierState) (gesture : String) : ℚ :=
  let recentGestures := lastN s.gestureHistory 5
  let consistentGestures := (recentGestures.filter fun g => g == gesture).length
  let consistency : ℚ := (consistentGestures : ℚ) / (recentGestures.length : ℚ)
  let recentConfidence := lastN s.confidenceHistory 5
  let avgConfidence := recentConfidence.sum / (recentConfidence.length : ℚ)
  consistency * (6/10) + avgConfidence * (4/10)

/-- `calculateStabilityScore`: pushes onto the history (the state mutation of
the source method) and returns the stability score together with the updated
state. -/
def calculateStabilityScore (s : ClassifierState) (gesture : String)
    (confidence : ℚ) : ℚ × ClassifierState :=
  let s1 := pushHistory s gesture confidence
  (stabilityScoreOf s1 gesture, s1)

/-- The stability score that a call of `classifyGesture` computes for the
final result `fr` when the prior history is `s`: push, trim, then score. -/
def gateScore (s : ClassifierState) (fr : GestureClassificationResult) : ℚ :=
  stabilityScoreOf (pushHistory s fr.primaryGesture fr.confidence) fr.primaryGesture

/-- `classifyGesture`: the public entry point.  Returns the (optional) result
together with the updated classifier state. -/
def classifyGesture (landmarks : List Landmark) (s : ClassifierState) :
    Option GestureClassificationResult × ClassifierState :=
  if landmarks.length ≠ 21 then (none, s) else
  match computeFinal landmarks with
  | none => (none, s)
  | some finalResult =>
    let scored := calculateStabilityScore s finalResult.primaryGesture
      finalResult.confidence
    if stabilityThreshold < scored.1 then
      (some { finalResult with stabilityScore := scored.1 }, scored.2)
    else (none, scored.2)

/-- `classifyGesture` on a possibly-null landmark array (`!landmarks` guard):
`none` models the TypeScript `null`/`undefined` argument. -/
def classifyGestureOpt (landmarks : Option (List Landmark))
    (s : ClassifierState) : Option GestureClassificationResult × ClassifierState :=
  match landmarks with
  | none => (none, s)
  | some lms => classifyGesture lms s

/-- Scaling every landmark's x and y (but not z) by `k` about the wrist — the
transformation named by the spec's scale-invariance property. -/
def scaleXYAboutWrist (k : ℚ) (lms : List Landmark) : List Landmark :=
  let wrist := nth lms 0
  lms.map fun p =>
    ⟨wrist.x + k * (p.x - wrist.x), wrist.y + k * (p.y - wrist.y), p.z⟩

/-- Scaling every landmark uniformly (x, y and z) by `k` about the wrist. -/
def scaleAboutWrist (k : ℚ) (lms : List Landmark) : List Landmark :=
  let wrist := nth lms 0
  lms.map fun p =>
    ⟨wrist.x + k * (p.x - wrist.x), wrist.y + k * (p.y - wrist.y),
     wrist.z + k * (p.z - wrist.z)⟩

/-- Translating every landmark by a constant offset. -/
def translateLandmarks (off : Landmark) (lms : List Landmark) : List Landmark :=
  lms.map fun p => ⟨p.x + off.x, p.y + off.y, p.z + off.z⟩

/-- A 21-point fixture whose bounding box has extent exactly 1 (landmark 7,
unused by any rule, pins the box) and whose wrist sits at the origin, so
normalization is the identity.  All four non-thumb fingers are extended, the
thumb is not, and the hand openness is 0.72 > 0.7, so the primary B rule
fires.  Every square root taken on this fixture is of a perfect rational
square, so `qSqrt` is exact on it. -/
def fxB : List Landmark :=
  [⟨0, 0, 0⟩, ⟨0, -1/10, 0⟩, ⟨0, -2/10, 0⟩, ⟨0, -5/10, 0⟩, ⟨0, -8/10, 0⟩,
   ⟨1/10, -3/10, 0⟩, ⟨2/10, -2/10, 0⟩, ⟨7/10, 0, 0⟩, ⟨3/10, -4/10, 0⟩,
   ⟨0, -3/10, 0⟩, ⟨0, -5/10, 0⟩, ⟨0, 0, 0⟩, ⟨0, -9/10, 0⟩,
   ⟨-1/10, -3/10, 0⟩, ⟨-2/10, -2/10, 0⟩, ⟨0, 0, 0⟩, ⟨-3/10, -4/10, 0⟩,
   ⟨-2/10, -3/10, 0⟩, ⟨0, -5/10, 0⟩, ⟨0, 0, 0⟩, ⟨0, -9/10, 0⟩]

/-- A 21-point closed-fist fixture (bounding box extent 1, wrist at the
origin): no non-thumb finger is extended, the thumb is extended, openness is
0.12 < 0.3, so the primary A rule fires. -/
def fxA : List Landmark :=
  [⟨0, 0, 0⟩, ⟨0, 0, 0⟩, ⟨0, 0, 0⟩, ⟨1/10, 0, 0⟩, ⟨2/10, 0, 0⟩,
   ⟨0, 0, 0⟩, ⟨0, -1/10, 0⟩, ⟨1, 0, 0⟩, ⟨0, -1/10, 0⟩,
   ⟨0, -1/10, 0⟩, ⟨0, -1/10, 0⟩, ⟨0, 0, 0⟩, ⟨0, -1/10, 0⟩,
   ⟨0, 0, 0⟩, ⟨0, -1/10, 0⟩, ⟨0, 0, 0⟩, ⟨0, -1/10, 0⟩,
   ⟨0, 0, 0⟩, ⟨0, -1/10, 0⟩, ⟨0, 0, 0⟩, ⟨0, -1/10, 0⟩]

/-- A 21-point pointing fixture for the D rule (bounding box extent 1, wrist
at the origin): only the index finger is extended and the thumb is extended.
The index tip sits at the same height as its base joint, so the index angle
is `atan2 0 (3/10) = 0` (exact), and the thumb tip at `(0.048, 0, 0.036)`
has three-dimensional distance exactly 0.06 from the wrist, so the D branch
of the D/R/U discriminator fires.  Scaling x and y by 18/7 shrinks the
normalized z to 0.014, pulling that distance down to exactly 0.05, which no
longer exceeds the 0.05 threshold, and the T/K/D/I block then relabels the
gesture I. -/
def fxD : List Landmark :=
  [⟨0, 0, 0⟩, ⟨1/10, -1/10, 0⟩, ⟨15/100, -2/10, 0⟩, ⟨0, 0, 0⟩, ⟨48/1000, 0, 36/1000⟩,
   ⟨2/10, -4/10, 0⟩, ⟨2/10, -3/10, 0⟩, ⟨8/10, 0, 0⟩, ⟨5/10, -4/10, 0⟩,
   ⟨5/100, -3/10, 0⟩, ⟨0, -3/10, 0⟩, ⟨0, 0, 0⟩, ⟨0, -3/10, 0⟩,
   ⟨-5/100, -3/10, 0⟩, ⟨-1/10, -3/10, 0⟩, ⟨0, 0, 0⟩, ⟨-1/10, -3/10, 0⟩,
   ⟨-15/100, -3/10, 0⟩, ⟨-2/10, -3/10, 0⟩, ⟨0, 0, 0⟩, ⟨-2/10, -3/10, 0⟩]

/-- A 21-point configuration (playing the role of an already-normalized hand)
on which the index finger counts as extended relative to the PIP joint 6
(tip y = -0.4 < -0.2 - 0.015) but not relative to the base joint 5
(tip y = -0.4 is not below -0.5 - 0.015). -/
def fxC6 : List Landmark :=
  [⟨0, 0, 0⟩, ⟨0, 0, 0⟩, ⟨0, 0, 0⟩, ⟨0, 0, 0⟩, ⟨0, 0, 0⟩,
   ⟨0, -5/10, 0⟩, ⟨0, -2/10, 0⟩, ⟨0, 0, 0⟩, ⟨0, -4/10, 0⟩,
   ⟨0, 0, 0⟩, ⟨0, 0, 0⟩, ⟨0, 0, 0⟩, ⟨0, 0, 0⟩,
   ⟨0, 0, 0⟩, ⟨0, 0, 0⟩, ⟨0, 0, 0⟩, ⟨0, 0, 0⟩,
   ⟨0, 0, 0⟩, ⟨0, 0, 0⟩, ⟨0, 0, 0⟩, ⟨0, 0, 0⟩]

/-- The primary classification result of `fxD` (used to witness the
confusion-group resolution claim). -/
def pD : GestureClassificationResult :=
  ⟨"D", 89/100, none, none, extractGeometricFeatures (normalizeLandmarks fxD), 0⟩

/-- The D/R/U discriminator result of `fxD`. -/
def srD : SecondaryResult := ⟨"D", 91/100, "angle_analysis", "DRU"⟩

/-- The final classification result of `fxB` before stability scoring. -/
def rBfix : GestureClassificationResult :=
  ⟨"B", 90/100, none, none, extractGeometricFeatures (normalizeLandmarks fxB), 0⟩

/-- The final classification result of `fxA` before stability scoring. -/
def rAfix : GestureClassificationResult :=
  ⟨"A", 92/100, none, none, extractGeometricFeatures (normalizeLandmarks fxA), 0⟩

/-- `landmarks[n]` of the alternating two-pose experiment: `f` on even calls,
`g` on odd calls. -/
def altInput (f g : List Landmark) (n : ℕ) : List Landmark :=
  if n % 2 = 0 then f else g

/-- Classifier state after `n` alternating calls starting from a fresh
instance. -/
def altState (f g : List Landmark) : ℕ → ClassifierState
  | 0 => emptyState
  | n+1 => (classifyGesture (altInput f g n) (altState f g n)).2

lemma foldl_min_hom (f : Landmark → ℚ) (φ : ℚ → ℚ)
    (hφ : ∀ a b, φ (min a b) = min (φ a) (φ b))
    (T : Landmark → Landmark) (hT : ∀ p, f (T p) = φ (f p)) (l : List Landmark) :
    ∀ a, (l.map T).foldl (fun m p => min m (f p)) (φ a) =
      φ (l.foldl (fun m p => min m (f p)) a) := by
  induction l with
  | nil => intro a; rfl
  | cons p rest ih =>
    intro a
    simp only [List.map_cons, List.foldl_cons, hT, ← hφ]
    exact ih _

lemma foldl_max_hom (f : Landmark → ℚ) (φ : ℚ → ℚ)
    (hφ : ∀ a b, φ (max a b) = max (φ a) (φ b))
    (T : Landmark → Landmark) (hT : ∀ p, f (T p) = φ (f p)) (l : List Landmark) :
    ∀ a, (l.map T).foldl (fun m p => max m (f p)) (φ a) =
      φ (l.foldl (fun m p => max m (f p)) a) := by
  induction l with
  | nil => intro a; rfl
  | cons p rest ih =>
    intro a
    simp only [List.map_cons, List.foldl_cons, hT, ← hφ]
    exact ih _

lemma foldl_min_le_start (f : Landmark → ℚ) (l : List Landmark) :
    ∀ a, l.foldl (fun m p => min m (f p)) a ≤ a := by
  induction l with
  | nil => intro a; exact le_rfl
  | cons p rest ih =>
    intro a
    exact le_trans (ih (min a (f p))) (min_le_left _ _)

lemma start_le_foldl_max (f : Landmark → ℚ) (l : List Landmark) :
    ∀ a, a ≤ l.foldl (fun m p => max m (f p)) a := by
  induction l with
  | nil => intro a; exact le_rfl
  | cons p rest ih =>
    intro a
    exact le_trans (le_max_left _ _) (ih (max a (f p)))

lemma foldl_min_le_of_mem (f : Landmark → ℚ) (l : List Landmark) (q : Landmark)
    (hq : q ∈ l) : ∀ a, l.foldl (fun m p => min m (f p)) a ≤ f q := by
  induction l with
  | nil => cases hq
  | cons p rest ih =>
    intro a
    rcases List.mem_cons.mp hq with h | h
    · subst h
      exact le_trans (foldl_min_le_start f rest _) (min_le_right _ _)
    · exact ih h _

lemma le_foldl_max_of_mem (f : Landmark → ℚ) (l : List Landmark) (q : Landmark)
    (hq : q ∈ l) : ∀ a, f q ≤ l.foldl (fun m p => max m (f p)) a := by
  induction l with
  | nil => cases hq
  | cons p rest ih =>
    intro a
    rcases List.mem_cons.mp hq with h | h
    · subst h
      exact le_trans (le_max_right _ _) (start_le_foldl_max f rest _)
    · exact ih h _

lemma min_affine (w k a b : ℚ) (hk : 0 ≤ k) :
    w + k * min a b = min (w + k * a) (w + k * b) := by
  rcases le_total a b with h | h
  · rw [min_eq_left h, min_eq_left]
    have := mul_le_mul_of_nonneg_left h hk
    linarith
  · rw [min_eq_right h, min_eq_right]
    have := mul_le_mul_of_nonneg_left h hk
    linarith

lemma max_affine (w k a b : ℚ) (hk : 0 ≤ k) :
    w + k * max a b = max (w + k * a) (w + k * b) := by
  rcases le_total a b with h | h
  · rw [max_eq_right h, max_eq_right]
    have := mul_le_mul_of_nonneg_left h hk
    linarith
  · rw [max_eq_left h, max_eq_left]
    have := mul_le_mul_of_nonneg_left h hk
    linarith

lemma nth_zero_map (T : Landmark → Landmark) (p0 : Landmark) (rest : List Landmark) :
    nth ((p0 :: rest).map T) 0 = T p0 := by
  simp [nth]

lemma minXOf_map_hom (T : Landmark → Landmark) (φ : ℚ → ℚ)
    (hφ : ∀ a b, φ (min a b) = min (φ a) (φ b))
    (hT : ∀ p, (T p).x = φ p.x) (p0 : Landmark) (rest : List Landmark) :
    minXOf ((p0 :: rest).map T) = φ (minXOf (p0 :: rest)) := by
  unfold minXOf
  rw [nth_zero_map]
  simp only [nth, List.getD_cons_zero, hT p0]
  exact foldl_min_hom Landmark.x φ hφ T hT (p0 :: rest) p0.x

lemma maxXOf_map_hom (T : Landmark → Landmark) (φ : ℚ → ℚ)
    (hφ : ∀ a b, φ (max a b) = max (φ a) (φ b))
    (hT : ∀ p, (T p).x = φ p.x) (p0 : Landmark) (rest : List Landmark) :
    maxXOf ((p0 :: rest).map T) = φ (maxXOf (p0 :: rest)) := by
  unfold maxXOf
  rw [nth_zero_map]
  simp only [nth, List.getD_cons_zero, hT p0]
  exact foldl_max_hom Landmark.x φ hφ T hT (p0 :: rest) p0.x

lemma minYOf_map_hom (T : Landmark → Landmark) (φ : ℚ → ℚ)
    (hφ : ∀ a b, φ (min a b) = min (φ a) (φ b))
    (hT : ∀ p, (T p).y = φ p.y) (p0 : Landmark) (rest : List Landmark) :
    minYOf ((p0 :: rest).map T) = φ (minYOf (p0 :: rest)) := by
  unfold minYOf
  rw [nth_zero_map]
  simp only [nth, List.getD_cons_zero, hT p0]
  exact foldl_min_hom Landmark.y φ hφ T hT (p0 :: rest) p0.y

lemma maxYOf_map_hom (T : Landmark → Landmark) (φ : ℚ → ℚ)
    (hφ : ∀ a b, φ (max a b) = max (φ a) (φ b))
    (hT : ∀ p, (T p).y = φ p.y) (p0 : Landmark) (rest : List Landmark) :
    maxYOf ((p0 :: rest).map T) = φ (maxYOf (p0 :: rest)) := by
  unfold maxYOf
  rw [nth_zero_map]
  simp only [nth, List.getD_cons_zero, hT p0]
  exact foldl_max_hom Landmark.y φ hφ T hT (p0 :: rest) p0.y

lemma normalize_translate (off : Landmark) (p0 : Landmark) (rest : List Landmark) :
    normalizeLandmarks (translateLandmarks off (p0 :: rest)) =
      normalizeLandmarks (p0 :: rest) := by
  have hT : translateLandmarks off (p0 :: rest) =
      (p0 :: rest).map (fun p => ⟨p.x + off.x, p.y + off.y, p.z + off.z⟩) := rfl
  rw [hT]
  have hminx := minXOf_map_hom
    (fun p => (⟨p.x + off.x, p.y + off.y, p.z + off.z⟩ : Landmark)) (fun t => t + off.x)
    (fun a b => (min_add_add_right a b off.x).symm) (fun p => rfl) p0 rest
  have hmaxx := maxXOf_map_hom
    (fun p => (⟨p.x + off.x, p.y + off.y, p.z + off.z⟩ : Landmark)) (fun t => t + off.x)
    (fun a b => (max_add_add_right a b off.x).symm) (fun p => rfl) p0 rest
  have hminy := minYOf_map_hom
    (fun p => (⟨p.x + off.x, p.y + off.y, p.z + off.z⟩ : Landmark)) (fun t => t + off.y)
    (fun a b => (min_add_add_right a b off.y).symm) (fun p => rfl) p0 rest
  have hmaxy := maxYOf_map_hom
    (fun p => (⟨p.x + off.x, p.y + off.y, p.z + off.z⟩ : Landmark)) (fun t => t + off.y)
    (fun a b => (max_add_add_right a b off.y).symm) (fun p => rfl) p0 rest
  have hscale0 : scale0Of ((p0 :: rest).map
      (fun p => ⟨p.x + off.x, p.y + off.y, p.z + off.z⟩)) = scale0Of (p0 :: rest) := by
    unfold scale0Of
    rw [hminx, hmaxx, hminy, hmaxy]
    ring_nf
  have hscale : scaleOf ((p0 :: rest).map
      (fun p => ⟨p.x + off.x, p.y + off.y, p.z + off.z⟩)) = scaleOf (p0 :: rest) := by
    unfold scaleOf
    rw [hscale0]
  unfold normalizeLandmarks
  rw [hscale, nth_zero_map, List.map_map]
  refine List.map_congr_left ?_
  intro p _
  have h1 : p.x + off.x - (p0.x + off.x) = p.x - p0.x := by ring
  have h2 : p.y + off.y - (p0.y + off.y) = p.y - p0.y := by ring
  have h3 : p.z + off.z - (p0.z + off.z) = p.z - p0.z := by ring
  simp only [Function.comp]
  rw [h1, h2, h3]
  simp [nth]

lemma computeFinal_congr (l1 l2 : List Landmark)
    (h : normalizeLandmarks l1 = normalizeLandmarks l2) :
    computeFinal l1 = computeFinal l2 := by
  unfold computeFinal
  rw [h]

lemma scaleAboutWrist_eq_map (k : ℚ) (p0 : Landmark) (rest : List Landmark) :
    scaleAboutWrist k (p0 :: rest) = (p0 :: rest).map
      (fun p => ⟨p0.x + k * (p.x - p0.x), p0.y + k * (p.y - p0.y),
        p0.z + k * (p.z - p0.z)⟩) := by
  simp [scaleAboutWrist, nth]

lemma scale0Of_scaleAboutWrist (k : ℚ) (hk : 0 ≤ k) (p0 : Landmark)
    (rest : List Landmark) :
    scale0Of (scaleAboutWrist k (p0 :: rest)) = k * scale0Of (p0 :: rest) := by
  rw [scaleAboutWrist_eq_map]
  have hphix : ∀ a b : ℚ, (fun t => p0.x + k * (t - p0.x)) (min a b) =
      min (p0.x + k * (a - p0.x)) (p0.x + k * (b - p0.x)) := by
    intro a b
    show p0.x + k * (min a b - p0.x) = _
    rw [← min_sub_sub_right a b p0.x]
    exact min_affine p0.x k _ _ hk
  have hphix' : ∀ a b : ℚ, (fun t => p0.x + k * (t - p0.x)) (max a b) =
      max (p0.x + k * (a - p0.x)) (p0.x + k * (b - p0.x)) := by
    intro a b
    show p0.x + k * (max a b - p0.x) = _
    rw [← max_sub_sub_right a b p0.x]
    exact max_affine p0.x k _ _ hk
  have hphiy : ∀ a b : ℚ, (fun t => p0.y + k * (t - p0.y)) (min a b) =
      min (p0.y + k * (a - p0.y)) (p0.y + k * (b - p0.y)) := by
    intro a b
    show p0.y + k * (min a b - p0.y) = _
    rw [← min_sub_sub_right a b p0.y]
    exact min_affine p0.y k _ _ hk
  have hphiy' : ∀ a b : ℚ, (fun t => p0.y + k * (t - p0.y)) (max a b) =
      max (p0.y + k * (a - p0.y)) (p0.y + k * (b - p0.y)) := by
    intro a b
    show p0.y + k * (max a b - p0.y) = _
    rw [← max_sub_sub_right a b p0.y]
    exact max_affine p0.y k _ _ hk
  have hminx := minXOf_map_hom
    (fun p => (⟨p0.x + k * (p.x - p0.x), p0.y + k * (p.y - p0.y),
      p0.z + k * (p.z - p0.z)⟩ : Landmark)) (fun t => p0.x + k * (t - p0.x))
    hphix (fun p => rfl) p0 rest
  have hmaxx := maxXOf_map_hom
    (fun p => (⟨p0.x + k * (p.x - p0.x), p0.y + k * (p.y - p0.y),
      p0.z + k * (p.z - p0.z)⟩ : Landmark)) (fun t => p0.x + k * (t - p0.x))
    hphix' (fun p => rfl) p0 rest
  have hminy := minYOf_map_hom
    (fun p => (⟨p0.x + k * (p.x - p0.x), p0.y + k * (p.y - p0.y),
      p0.z + k * (p.z - p0.z)⟩ : Landmark)) (fun t => p0.y + k * (t - p0.y))
    hphiy (fun p => rfl) p0 rest
  have hmaxy := maxYOf_map_hom
    (fun p => (⟨p0.x + k * (p.x - p0.x), p0.y + k * (p.y - p0.y),
      p0.z + k * (p.z - p0.z)⟩ : Landmark)) (fun t => p0.y + k * (t - p0.y))
    hphiy' (fun p => rfl) p0 rest
  unfold scale0Of
  rw [hminx, hmaxx, hminy, hmaxy]
  have hx : (fun t => p0.x + k * (t - p0.x)) (maxXOf (p0 :: rest)) -
      (fun t => p0.x + k * (t - p0.x)) (minXOf (p0 :: rest)) =
      k * (maxXOf (p0 :: rest) - minXOf (p0 :: rest)) := by
    show p0.x + k * (maxXOf (p0 :: rest) - p0.x) -
      (p0.x + k * (minXOf (p0 :: rest) - p0.x)) = _
    ring
  have hy : (fun t => p0.y + k * (t - p0.y)) (maxYOf (p0 :: rest)) -
      (fun t => p0.y + k * (t - p0.y)) (minYOf (p0 :: rest)) =
      k * (maxYOf (p0 :: rest) - minYOf (p0 :: rest)) := by
    show p0.y + k * (maxYOf (p0 :: rest) - p0.y) -
      (p0.y + k * (minYOf (p0 :: rest) - p0.y)) = _
    ring
  rw [hx, hy]
  have := max_affine 0 k (maxXOf (p0 :: rest) - minXOf (p0 :: rest))
    (maxYOf (p0 :: rest) - minYOf (p0 :: rest)) hk
  simpa using this.symm

lemma normalize_scale (k : ℚ) (hk : 0 < k) (p0 : Landmark) (rest : List Landmark)
    (hdeg : scale0Of (p0 :: rest) ≠ 0) :
    normalizeLandmarks (scaleAboutWrist k (p0 :: rest)) =
      normalizeLandmarks (p0 :: rest) := by
  have hT := scaleAboutWrist_eq_map k p0 rest
  have hscale0 : scale0Of ((p0 :: rest).map
      (fun p => ⟨p0.x + k * (p.x - p0.x), p0.y + k * (p.y - p0.y),
        p0.z + k * (p.z - p0.z)⟩)) = k * scale0Of (p0 :: rest) := by
    rw [← scaleAboutWrist_eq_map]
    exact scale0Of_scaleAboutWrist k hk.le p0 rest
  have hscale : scaleOf ((p0 :: rest).map
      (fun p => ⟨p0.x + k * (p.x - p0.x), p0.y + k * (p.y - p0.y),
        p0.z + k * (p.z - p0.z)⟩)) = k * scaleOf (p0 :: rest) := by
    unfold scaleOf
    rw [hscale0, if_neg hdeg, if_neg (mul_ne_zero hk.ne' hdeg)]
  rw [hT]
  unfold normalizeLandmarks
  rw [hscale, nth_zero_map, List.map_map]
  refine List.map_congr_left ?_
  intro p _
  have hw : nth (p0 :: rest) 0 = p0 := by simp [nth]
  rw [hw]
  have hsne : scaleOf (p0 :: rest) ≠ 0 := by
    unfold scaleOf
    rw [if_neg hdeg]
    exact hdeg
  simp only [Function.comp]
  have e1 : p0.x + k * (p.x - p0.x) - (p0.x + k * (p0.x - p0.x)) =
      k * (p.x - p0.x) := by ring
  have e2 : p0.y + k * (p.y - p0.y) - (p0.y + k * (p0.y - p0.y)) =
      k * (p.y - p0.y) := by ring
  have e3 : p0.z + k * (p.z - p0.z) - (p0.z + k * (p0.z - p0.z)) =
      k * (p.z - p0.z) := by ring
  rw [e1, e2, e3, mul_div_mul_left _ _ hk.ne', mul_div_mul_left _ _ hk.ne',
    mul_div_mul_left _ _ hk.ne']

lemma nth_xy_zero (l : List Landmark) (h : ∀ q ∈ l, q.x = 0 ∧ q.y = 0) (i : ℕ) :
    (nth l i).x = 0 ∧ (nth l i).y = 0 := by
  unfold nth
  rcases lt_or_le i l.length with hi | hi
  · rw [List.getD_eq_getElem l _ hi]
    exact h _ (List.getElem_mem hi)
  · rw [List.getD_eq_default l _ hi]
    exact ⟨rfl, rfl⟩

lemma normalized_xy_zero_of_degenerate (p0 : Landmark) (rest : List Landmark)
    (hdeg : scale0Of (p0 :: rest) = 0) :
    ∀ q ∈ normalizeLandmarks (p0 :: rest), q.x = 0 ∧ q.y = 0 := by
  have hxw : minXOf (p0 :: rest) ≤ p0.x := by
    have := foldl_min_le_start Landmark.x (p0 :: rest) (nth (p0 :: rest) 0).x
    simpa [minXOf, nth] using this
  have hwx : p0.x ≤ maxXOf (p0 :: rest) := by
    have := start_le_foldl_max Landmark.x (p0 :: rest) (nth (p0 :: rest) 0).x
    simpa [maxXOf, nth] using this
  have hyw : minYOf (p0 :: rest) ≤ p0.y := by
    have := foldl_min_le_start Landmark.y (p0 :: rest) (nth (p0 :: rest) 0).y
    simpa [minYOf, nth] using this
  have hwy : p0.y ≤ maxYOf (p0 :: rest) := by
    have := start_le_foldl_max Landmark.y (p0 :: rest) (nth (p0 :: rest) 0).y
    simpa [maxYOf, nth] using this
  have hx0 : maxXOf (p0 :: rest) - minXOf (p0 :: rest) = 0 := by
    have h1 : maxXOf (p0 :: rest) - minXOf (p0 :: rest) ≤ 0 := by
      rw [← hdeg]
      exact le_max_left _ _
    linarith
  have hy0 : maxYOf (p0 :: rest) - minYOf (p0 :: rest) = 0 := by
    have h1 : maxYOf (p0 :: rest) - minYOf (p0 :: rest) ≤ 0 := by
      rw [← hdeg]
      exact le_max_right _ _
    linarith
  intro q hq
  unfold normalizeLandmarks at hq
  rcases List.mem_map.mp hq with ⟨p, hp, hpq⟩
  have hpx : p.x = p0.x := by
    have h1 : minXOf (p0 :: rest) ≤ p.x := by
      have := foldl_min_le_of_mem Landmark.x (p0 :: rest) p hp (nth (p0 :: rest) 0).x
      simpa [minXOf] using this
    have h2 : p.x ≤ maxXOf (p0 :: rest) := by
      have := le_foldl_max_of_mem Landmark.x (p0 :: rest) p hp (nth (p0 :: rest) 0).x
      simpa [maxXOf] using this
    linarith
  have hpy : p.y = p0.y := by
    have h1 : minYOf (p0 :: rest) ≤ p.y := by
      have := foldl_min_le_of_mem Landmark.y (p0 :: rest) p hp (nth (p0 :: rest) 0).y
      simpa [minYOf] using this
    have h2 : p.y ≤ maxYOf (p0 :: rest) := by
      have := le_foldl_max_of_mem Landmark.y (p0 :: rest) p hp (nth (p0 :: rest) 0).y
      simpa [maxYOf] using this
    linarith
  have hw : nth (p0 :: rest) 0 = p0 := by simp [nth]
  rw [← hpq, hw, hpx, hpy]
  constructor <;> simp

lemma primary_none_of_xy_zero (lmsN : List Landmark)
    (h : ∀ q ∈ lmsN, q.x = 0 ∧ q.y = 0) (gf : List ℚ) :
    primaryClassification (calculateAdvancedFingerStates lmsN) gf = none := by
  have h3 := nth_xy_zero lmsN h 3
  have h4 := nth_xy_zero lmsN h 4
  have h6 := nth_xy_zero lmsN h 6
  have h8 := nth_xy_zero lmsN h 8
  have hTE : (calculateAdvancedFingerStates lmsN).thumbExtended = false := by
    simp only [calculateAdvancedFingerStates]
    rw [h3.1, h4.1]
    norm_num
  have hTU : (calculateAdvancedFingerStates lmsN).thumbUp = false := by
    simp only [calculateAdvancedFingerStates]
    rw [h3.2, h4.2]
    norm_num
  have hTC : (calculateAdvancedFingerStates lmsN).thumbCurled = false := by
    simp only [calculateAdvancedFingerStates]
    rw [h3.2, h4.2]
    norm_num
  have hIE : (calculateAdvancedFingerStates lmsN).indexExtended = false := by
    simp only [calculateAdvancedFingerStates]
    rw [h6.2, h8.2]
    norm_num
  unfold primaryClassification
  rw [if_neg, if_neg, if_neg, if_neg, if_neg, if_neg]
  · intro hcond
    rw [hTE] at hcond
    simp at hcond
  · intro hcond
    rw [hTC] at hcond
    simp at hcond
  · intro hcond
    rw [hIE] at hcond
    simp at hcond
  · intro hcond
    rw [hTU] at hcond
    simp at hcond
  · intro hcond
    rw [hIE] at hcond
    simp at hcond
  · intro hcond
    rw [hTE] at hcond
    simp at hcond

lemma classify_step (lms : List Landmark) (s : ClassifierState)
    (fr : GestureClassificationResult) (h21 : lms.length = 21)
    (hcf : computeFinal lms = some fr) :
    classifyGesture lms s =
      (if stabilityThreshold < gateScore s fr
        then some { fr with stabilityScore := gateScore s fr }
        else none,
       pushHistory s fr.primaryGesture fr.confidence) := by
  unfold classifyGesture calculateStabilityScore gateScore
  rw [hcf]
  simp only [h21, ne_eq, not_true_eq_false, if_false, ite_false, reduceIte]
  split_ifs <;> rfl

lemma stabilityScoreOf_replicate (g : String) (c : ℚ) (m : ℕ) (hm : 0 < m) :
    stabilityScoreOf ⟨List.replicate m g, List.replicate m c⟩ g =
      6/10 + c * (4/10) := by
  unfold stabilityScoreOf lastN
  simp only [List.length_replicate, List.drop_replicate, List.filter_replicate,
    beq_self_eq_true, if_pos, List.sum_replicate, nsmul_eq_mul]
  have hm5 : 0 < m - (m - 5) := by omega
  have hne : ((m - (m - 5) : ℕ) : ℚ) ≠ 0 := Nat.cast_ne_zero.mpr hm5.ne'
  rw [div_self hne]
  rw [mul_div_cancel_left₀ c hne]
  ring

lemma stabilityScoreOf_le_of_prev_ne (l : List String) (prev g : String)
    (ch : List ℚ) (hne : prev ≠ g) (hlen : ch.length = l.length + 2)
    (hconf : ∀ c ∈ ch, c ≤ 92/100) :
    stabilityScoreOf ⟨l ++ [prev, g], ch⟩ g ≤ 848/1000 := by
  unfold stabilityScoreOf lastN
  simp only
  have hlen2 : (l ++ [prev, g]).length = l.length + 2 := by simp
  rw [hlen2]
  have hd : l.length + 2 - 5 ≤ l.length := by omega
  rw [List.drop_append_of_le_length hd]
  set l2 := l.drop (l.length + 2 - 5) with hl2
  have hl2len : l2.length = l.length - (l.length + 2 - 5) := by
    rw [hl2, List.length_drop]
  have hl2small : l2.length ≤ 3 := by omega
  set recent := l2 ++ [prev, g] with hrec
  have hreclen : recent.length = l2.length + 2 := by simp [hrec]
  have hrecle : recent.length ≤ 5 := by omega
  have hrecge : 2 ≤ recent.length := by omega
  -- the previous gesture sits in the window and differs from g
  have hprev : prev ∈ recent := by
    rw [hrec]
    exact List.mem_append_right _ (List.mem_cons_self _ _)
  have hcount : ((recent.filter fun x => x == g).length : ℚ) ≤
      (recent.length : ℚ) - 1 := by
    have hsplit := List.length_eq_countP_add_countP (fun x => x == g) recent
    have hpos : 0 < List.countP (fun a => decide ¬((a == g) = true)) recent := by
      refine List.countP_pos_iff.mpr ⟨prev, hprev, ?_⟩
      have : (prev == g) = false := beq_eq_false_iff_ne.mpr hne
      rw [this]
      decide
    have hfilter : (recent.filter fun x => x == g).length =
        List.countP (fun x => x == g) recent :=
      (List.countP_eq_length_filter _ _).symm
    rw [hfilter]
    have : List.countP (fun x => x == g) recent + 1 ≤ recent.length := by omega
    have hcast : (List.countP (fun x => x == g) recent : ℚ) + 1 ≤
        (recent.length : ℚ) := by exact_mod_cast this
    linarith
  -- mean confidence over the window is at most 0.92
  have hchlen : (ch.drop (ch.length - 5)).length = recent.length := by
    rw [List.length_drop, hlen, hreclen]
    omega
  have hchsub : ∀ x ∈ ch.drop (ch.length - 5), x ≤ 92/100 := by
    intro x hx
    exact hconf x ((List.drop_suffix _ _).mem hx)
  have hsum : (ch.drop (ch.length - 5)).sum ≤
      ((ch.drop (ch.length - 5)).length : ℚ) * (92/100) := by
    have := List.sum_le_card_nsmul (ch.drop (ch.length - 5)) (92/100) hchsub
    rwa [nsmul_eq_mul] at this
  have hnpos : (0 : ℚ) < (recent.length : ℚ) := by
    exact_mod_cast Nat.lt_of_lt_of_le Nat.zero_lt_two hrecge
  have hcons : ((recent.filter fun x => x == g).length : ℚ) / (recent.length : ℚ) ≤
      4/5 := by
    rw [div_le_iff₀ hnpos]
    have h5 : ((recent.length : ℚ)) ≤ 5 := by exact_mod_cast hrecle
    nlinarith
  have havg : (ch.drop (ch.length - 5)).sum / ((ch.drop (ch.length - 5)).length : ℚ) ≤
      92/100 := by
    rw [hchlen] at hsum ⊢
    rw [div_le_iff₀ hnpos]
    linarith
  have hconsnn : (0:ℚ) ≤ ((recent.filter fun x => x == g).length : ℚ) /
      (recent.length : ℚ) := by positivity
  linarith [hcons, havg]

lemma pushHistory_base (g : String) (c : ℚ) :
    pushHistory emptyState g c = ⟨[g], [c]⟩ := by
  simp [pushHistory, emptyState, historySize]

lemma pushHistory_invariant (s : ClassifierState) (g : String) (c : ℚ)
    (l : List String) (prev : String) (hgh : s.gestureHistory = l ++ [prev])
    (hlen : s.confidenceHistory.length = s.gestureHistory.length)
    (hconf : ∀ x ∈ s.confidenceHistory, x ≤ 92/100) (hc : c ≤ 92/100) :
    ∃ l2 ch2, pushHistory s g c = ⟨l2 ++ [prev, g], ch2⟩ ∧
      ch2.length = l2.length + 2 ∧ (∀ x ∈ ch2, x ≤ 92/100) := by
  unfold pushHistory
  split_ifs with htrim
  · -- overflow: drop the oldest entry of each history
    rw [hgh] at htrim
    unfold historySize at htrim
    simp only [List.length_append, List.length_cons] at htrim
    cases l with
    | nil => simp at htrim
    | cons a t =>
      refine ⟨t, (s.confidenceHistory ++ [c]).tail, ?_, ?_, ?_⟩
      · rw [hgh]
        simp
      · rw [List.length_tail]
        simp only [List.length_append, List.length_cons]
        rw [hlen, hgh]
        simp
      · intro x hx
        have hx2 : x ∈ s.confidenceHistory ++ [c] :=
          (List.tail_suffix _).mem hx
        rcases List.mem_append.mp hx2 with h | h
        · exact hconf x h
        · simp at h
          subst h
          exact hc
  · refine ⟨l, s.confidenceHistory ++ [c], ?_, ?_, ?_⟩
    · rw [hgh, List.append_assoc]
      rfl
    · simp only [List.length_append, List.length_cons, List.length_nil]
      rw [hlen, hgh]
      simp
    · intro x hx
      rcases List.mem_append.mp hx with h | h
      · exact hconf x h
      · simp at h
        subst h
        exact hc

lemma primary_cases (fs : AdvancedFingerStates) (gf : List ℚ)
    (p : GestureClassificationResult) (hp : primaryClassification fs gf = some p) :
    p = ⟨"A", 92/100, none, none, gf, 0⟩ ∨ p = ⟨"B", 90/100, none, none, gf, 0⟩ ∨
    p = ⟨"C", 88/100, none, none, gf, 0⟩ ∨ p = ⟨"D", 89/100, none, none, gf, 0⟩ ∨
    p = ⟨"E", 85/100, none, none, gf, 0⟩ ∨ p = ⟨"F", 87/100, none, none, gf, 0⟩ := by
  unfold primaryClassification at hp
  split_ifs at hp
  · exact Or.inl (Option.some.inj hp).symm
  · exact Or.inr (Or.inl (Option.some.inj hp).symm)
  · exact Or.inr (Or.inr (Or.inl (Option.some.inj hp).symm))
  · exact Or.inr (Or.inr (Or.inr (Or.inl (Option.some.inj hp).symm)))
  · exact Or.inr (Or.inr (Or.inr (Or.inr (Or.inl (Option.some.inj hp).symm))))
  · exact Or.inr (Or.inr (Or.inr (Or.inr (Or.inr (Option.some.inj hp).symm))))

lemma primary_d_guard (fs : AdvancedFingerStates) (gf : List ℚ)
    (p : GestureClassificationResult) (hp : primaryClassification fs gf = some p)
    (hd : p.primaryGesture = "D") :
    fs.indexExtended = true ∧ fs.middleExtended = false := by
  unfold primaryClassification at hp
  split_ifs at hp with h1 h2 h3 h4 h5 h6 <;>
    simp only [Option.some.injEq] at hp <;> rw [← hp] at hd <;> simp at hd
  exact ⟨h4.1, Bool.not_eq_true _ ▸ h4.2.1⟩

lemma secondary_conf_bounds (g : String) (fs : AdvancedFingerStates)
    (gf : List ℚ) (sr : SecondaryResult)
    (hs : secondaryClassification g fs gf = some sr) :
    86/100 ≤ sr.confidence ∧ sr.confidence ≤ 92/100 := by
  unfold secondaryClassification at hs
  split_ifs at hs <;> cases hs <;> norm_num

lemma secondary_none_of_not_grouped (g : String) (fs : AdvancedFingerStates)
    (gf : List ℚ)
    (h1 : ((["D", "R", "U"] : List String).contains g) = false)
    (h2 : ((["T", "K", "D", "I"] : List String).contains g) = false)
    (h3 : ((["S", "M", "N"] : List String).contains g) = false) :
    secondaryClassification g fs gf = none := by
  unfold secondaryClassification
  simp only [h1, h2, h3, Bool.false_eq_true, false_and, if_false, ite_false]

lemma computeFinal_eq (lms : List Landmark) :
    computeFinal lms =
      match primaryClassification
          (calculateAdvancedFingerStates (normalizeLandmarks lms))
          (extractGeometricFeatures (normalizeLandmarks lms)) with
      | none => none
      | some primaryResult =>
        if isInConfusionGroup primaryResult.primaryGesture then
          match secondaryClassification primaryResult.primaryGesture
              (calculateAdvancedFingerStates (normalizeLandmarks lms))
              (extractGeometricFeatures (normalizeLandmarks lms)) with
          | some secondaryResult =>
            some { primaryResult with
              primaryGesture := secondaryResult.gesture
              confidence := (primaryResult.confidence + secondaryResult.confidence) / 2
              secondaryClassification := some secondaryResult.method
              confusionGroup := some secondaryResult.group }
          | none => some primaryResult
        else some primaryResult := rfl

lemma computeFinal_conf_bounds (lms : List Landmark)
    (fr : GestureClassificationResult) (h : computeFinal lms = some fr) :
    85/100 ≤ fr.confidence ∧ fr.confidence ≤ 92/100 := by
  rw [computeFinal_eq] at h
  cases hp : primaryClassification
      (calculateAdvancedFingerStates (normalizeLandmarks lms))
      (extractGeometricFeatures (normalizeLandmarks lms)) with
  | none => rw [hp] at h; cases h
  | some p =>
    rw [hp] at h
    have hpb : 85/100 ≤ p.confidence ∧ p.confidence ≤ 92/100 := by
      rcases primary_cases _ _ _ hp with h' | h' | h' | h' | h' | h' <;>
        rw [h'] <;> norm_num
    simp only at h
    split_ifs at h with hgrp
    · cases hs : secondaryClassification p.primaryGesture
          (calculateAdvancedFingerStates (normalizeLandmarks lms))
          (extractGeometricFeatures (normalizeLandmarks lms)) with
      | none =>
        rw [hs] at h
        simp only [Option.some.injEq] at h
        rw [← h]
        exact hpb
      | some sr =>
        rw [hs] at h
        simp only [Option.some.injEq] at h
        have hsb := secondary_conf_bounds _ _ _ _ hs
        rw [← h]
        simp only
        constructor <;> [linarith [hpb.1, hsb.1]; linarith [hpb.2, hsb.2]]
    · simp only [Option.some.injEq] at h
      rw [← h]
      exact hpb

lemma secondary_d_cases (fs : AdvancedFingerStates) (gf : List ℚ)
    (sr : SecondaryResult) (hIE : fs.indexExtended = true)
    (hME : fs.middleExtended = false)
    (hs : secondaryClassification "D" fs gf = some sr) :
    sr.gesture = "D" ∨ sr.gesture = "I" := by
  unfold secondaryClassification at hs
  split_ifs at hs with h1 h2 h3 h4 h5 h6 h7 h8 h9
  · cases hs
    exact Or.inl rfl
  · exact absurd h2.2.2 (by simp [hME])
  · exact absurd h3.2.2 (by simp [hME])
  · exact absurd hIE h4.2.2
  · exact absurd h5.2.2.1 (by simp [hME])
  · cases hs
    exact Or.inr rfl
  · exact absurd h7.1 (by decide)
  · exact absurd h8.1 (by decide)
  · exact absurd h9.1 (by decide)

lemma computeFinal_of_primary (lms : List Landmark)
    (p : GestureClassificationResult)
    (hp : primaryClassification
      (calculateAdvancedFingerStates (normalizeLandmarks lms))
      (extractGeometricFeatures (normalizeLandmarks lms)) = some p) :
    computeFinal lms =
      if isInConfusionGroup p.primaryGesture then
        match secondaryClassification p.primaryGesture
            (calculateAdvancedFingerStates (normalizeLandmarks lms))
            (extractGeometricFeatures (normalizeLandmarks lms)) with
        | some secondaryResult =>
          some { p with
            primaryGesture := secondaryResult.gesture
            confidence := (p.confidence + secondaryResult.confidence) / 2
            secondaryClassification := some secondaryResult.method
            confusionGroup := some secondaryResult.group }
        | none => some p
      else some p := by
  rw [computeFinal_eq, hp]

lemma computeFinal_some_of_primary (lms : List Landmark)
    (p : GestureClassificationResult)
    (hp : primaryClassification
      (calculateAdvancedFingerStates (normalizeLandmarks lms))
      (extractGeometricFeatures (normalizeLandmarks lms)) = some p) :
    ∃ fr, computeFinal lms = some fr := by
  rw [computeFinal_of_primary lms p hp]
  split_ifs with hg
  · cases hs : secondaryClassification p.primaryGesture
        (calculateAdvancedFingerStates (normalizeLandmarks lms))
        (extractGeometricFeatures (normalizeLandmarks lms)) with
    | none => exact ⟨p, rfl⟩
    | some sr => exact ⟨_, rfl⟩
  · exact ⟨p, rfl⟩

lemma computeFinal_letter (lms : List Landmark)
    (fr : GestureClassificationResult) (h : computeFinal lms = some fr) :
    fr.primaryGesture ∈ (["A", "B", "C", "D", "E", "F", "I"] : List String) := by
  rw [computeFinal_eq] at h
  cases hp : primaryClassification
      (calculateAdvancedFingerStates (normalizeLandmarks lms))
      (extractGeometricFeatures (normalizeLandmarks lms)) with
  | none => rw [hp] at h; cases h
  | some p =>
    rw [hp] at h
    simp only at h
    rcases primary_cases _ _ _ hp with hh | hh | hh | hh | hh | hh
    -- A: not in any confusion group, result unchanged
    · rw [hh] at h
      dsimp only at h
      rw [if_neg (by decide : ¬(isInConfusionGroup "A" = true))] at h
      cases h
      exact (by decide : ("A" : String) ∈ (["A", "B", "C", "D", "E", "F", "I"] : List String))
    -- B: in group5 but no discriminator block handles it
    · rw [hh] at h
      dsimp only at h
      rw [if_pos (by decide : isInConfusionGroup "B" = true),
        secondary_none_of_not_grouped _ _ _ (by decide) (by decide) (by decide)] at h
      cases h
      exact (by decide : ("B" : String) ∈ (["A", "B", "C", "D", "E", "F", "I"] : List String))
    -- C: in group4 but no discriminator block handles it
    · rw [hh] at h
      dsimp only at h
      rw [if_pos (by decide : isInConfusionGroup "C" = true),
        secondary_none_of_not_grouped _ _ _ (by decide) (by decide) (by decide)] at h
      cases h
      exact (by decide : ("C" : String) ∈ (["A", "B", "C", "D", "E", "F", "I"] : List String))
    -- D: the discriminators can only relabel it D or I
    · have hguard := primary_d_guard _ _ _ hp (by rw [hh])
      rw [hh] at h
      dsimp only at h
      rw [if_pos (by decide : isInConfusionGroup "D" = true)] at h
      cases hs : secondaryClassification "D"
          (calculateAdvancedFingerStates (normalizeLandmarks lms))
          (extractGeometricFeatures (normalizeLandmarks lms)) with
      | none =>
        rw [hs] at h
        cases h
        exact (by decide : ("D" : String) ∈ (["A", "B", "C", "D", "E", "F", "I"] : List String))
      | some sr =>
        rw [hs] at h
        cases h
        rcases secondary_d_cases _ _ _ hguard.1 hguard.2 hs with hg | hg <;>
          simp [hg]
    -- E: not in any confusion group
    · rw [hh] at h
      dsimp only at h
      rw [if_neg (by decide : ¬(isInConfusionGroup "E" = true))] at h
      cases h
      exact (by decide : ("E" : String) ∈ (["A", "B", "C", "D", "E", "F", "I"] : List String))
    -- F: in group5 but no discriminator block handles it
    · rw [hh] at h
      dsimp only at h
      rw [if_pos (by decide : isInConfusionGroup "F" = true),
        secondary_none_of_not_grouped _ _ _ (by decide) (by decide) (by decide)] at h
      cases h
      exact (by decide : ("F" : String) ∈ (["A", "B", "C", "D", "E", "F", "I"] : List String))

lemma computeFinal_none_of_degenerate (p0 : Landmark) (rest : List Landmark)
    (hdeg : scale0Of (p0 :: rest) = 0) : computeFinal (p0 :: rest) = none := by
  simp only [computeFinal]
  rw [primary_none_of_xy_zero _ (normalized_xy_zero_of_degenerate p0 rest hdeg)]

lemma altInput_self (f : List Landmark) (n : ℕ) : altInput f f n = f := by
  unfold altInput
  split_ifs <;> rfl

lemma pushHistory_replicate (g : String) (c : ℚ) (m : ℕ)
    (hm : m + 1 ≤ historySize) :
    pushHistory ⟨List.replicate m g, List.replicate m c⟩ g c =
      ⟨List.replicate (m+1) g, List.replicate (m+1) c⟩ := by
  unfold pushHistory
  rw [if_neg]
  · rw [← List.replicate_succ', ← List.replicate_succ']
  · unfold historySize at hm ⊢
    simp only [List.length_append, List.length_replicate, List.length_cons,
      List.length_nil]
    omega

lemma altState_const (f : List Landmark) (R : GestureClassificationResult)
    (h21 : f.length = 21) (hcf : computeFinal f = some R) :
    ∀ n, n ≤ historySize → altState f f n =
      ⟨List.replicate n R.primaryGesture, List.replicate n R.confidence⟩ := by
  intro n
  induction n with
  | zero => intro _; rfl
  | succ m ih =>
    intro hm
    show (classifyGesture (altInput f f m) (altState f f m)).2 = _
    rw [altInput_self, ih (by omega), classify_step f _ R h21 hcf]
    exact pushHistory_replicate _ _ m hm

lemma computeFinal_b_rule (f : List Landmark)
    (hIE : (calculateAdvancedFingerStates (normalizeLandmarks f)).indexExtended = true)
    (hME : (calculateAdvancedFingerStates (normalizeLandmarks f)).middleExtended = true)
    (hRE : (calculateAdvancedFingerStates (normalizeLandmarks f)).ringExtended = true)
    (hPE : (calculateAdvancedFingerStates (normalizeLandmarks f)).pinkyExtended = true)
    (hTE : (calculateAdvancedFingerStates (normalizeLandmarks f)).thumbExtended = false)
    (hOp : 7/10 < (calculateAdvancedFingerStates (normalizeLandmarks f)).handOpenness) :
    computeFinal f = some ⟨"B", 90/100, none, none,
      extractGeometricFeatures (normalizeLandmarks f), 0⟩ := by
  have hp : primaryClassification
      (calculateAdvancedFingerStates (normalizeLandmarks f))
      (extractGeometricFeatures (normalizeLandmarks f)) =
      some ⟨"B", 90/100, none, none,
        extractGeometricFeatures (normalizeLandmarks f), 0⟩ := by
    unfold primaryClassification
    rw [if_neg, if_pos]
    · exact ⟨hIE, hME, hRE, hPE, by simp [hTE], hOp⟩
    · rintro ⟨hnIE, -⟩
      exact hnIE hIE
  rw [computeFinal_of_primary f _ hp]
  dsimp only
  rw [if_pos (by decide : isInConfusionGroup "B" = true),
    secondary_none_of_not_grouped _ _ _ (by decide) (by decide) (by decide)]

/-- C1: for every input that is not a sequence of exactly 21 landmarks — a
shorter or longer list, an empty list, or a null (`none`) input — and every
prior history state, `classifyGesture` returns `none` without touching the
history: the call returns the prior state unchanged. -/
theorem classify_rejects_malformed (o : Option (List Landmark))
    (s : ClassifierState) (h : ∀ l, o = some l → l.length ≠ 21) :
    classifyGestureOpt o s = (none, s) := by
  cases o with
  | none => rfl
  | some l =>
    have h21 := h l rfl
    unfold classifyGestureOpt classifyGesture
    simp [h21]

theorem classify_rejects_malformed_witness :
    (∀ l, some (List.replicate 20 (⟨0, 0, 0⟩ : Landmark)) = some l →
      l.length ≠ 21) ∧
    classifyGestureOpt (some (List.replicate 20 (⟨0, 0, 0⟩ : Landmark)))
      emptyState = (none, emptyState) :=
  ⟨fun l hl => by cases hl; decide,
   classify_rejects_malformed _ _ (fun l hl => by cases hl; decide)⟩

/-- C2: a call of `classifyGesture` returns a non-`none` result exactly when
the input has 21 landmarks, some rule produced a final result, and the
stability score computed for that call (after pushing onto the history)
exceeds 0.85; moreover any returned result carries that score, so it always
exceeds 0.85.  In particular a score ≤ 0.85, or no matching rule, yields
`none`. -/
theorem stability_gate_governs_output (lms : List Landmark)
    (s : ClassifierState) :
    (∀ r, (classifyGesture lms s).1 = some r →
      stabilityThreshold < r.stabilityScore) ∧
    ((classifyGesture lms s).1.isSome = true ↔
      lms.length = 21 ∧ ∃ fr, computeFinal lms = some fr ∧
        stabilityThreshold < gateScore s fr) := by
  by_cases h21 : lms.length = 21
  · cases hcf : computeFinal lms with
    | none =>
      have hres : classifyGesture lms s = (none, s) := by
        unfold classifyGesture
        rw [hcf]
        simp [h21]
      rw [hres]
      constructor
      · intro r hr
        cases hr
      · simp only [Option.isSome_none, Bool.false_eq_true, false_iff]
        rintro ⟨-, fr, hfr, -⟩
        exact Option.noConfusion hfr
    | some fr =>
      rw [classify_step lms s fr h21 hcf]
      split_ifs with hgate
      · constructor
        · intro r hr
          cases hr
          exact hgate
        · simp only [Option.isSome_some, true_iff]
          exact ⟨h21, fr, rfl, hgate⟩
      · constructor
        · intro r hr
          cases hr
        · simp only [Option.isSome_none, Bool.false_eq_true, false_iff]
          rintro ⟨-, fr2, hfr2, hg2⟩
          cases Option.some.inj hfr2
          exact hgate hg2
  · have hres : classifyGesture lms s = (none, s) := by
      unfold classifyGesture
      simp [h21]
    rw [hres]
    constructor
    · intro r hr
      cases hr
    · simp only [Option.isSome_none, Bool.false_eq_true, false_iff]
      rintro ⟨h, -⟩
      exact h21 h

theorem stability_gate_governs_output_witness :
    (∀ r, (classifyGesture fxB emptyState).1 = some r →
      stabilityThreshold < r.stabilityScore) ∧
    ((classifyGesture fxB emptyState).1.isSome = true ↔
      fxB.length = 21 ∧ ∃ fr, computeFinal fxB = some fr ∧
        stabilityThreshold < gateScore emptyState fr) :=
  stability_gate_governs_output fxB emptyState

/-- C6 counterexample: on an explicit normalized hand configuration the
computed `indexExtended` flag is `true` although the fingertip (index 8) is
not above the base joint (index 5) by more than 0.015 — the code compares
against the PIP joint (index 6), not the base joint named by the claim. -/
theorem finger_flags_base_joints_counterexample :
    (calculateAdvancedFingerStates fxC6).indexExtended = true ∧
    ¬((nth fxC6 8).y < (nth fxC6 5).y - 15/1000) := by
  constructor
  · decide
  · decide

/-- C6 (amended): for each non-thumb finger the extended flag holds exactly
when the fingertip's y is above the finger's PIP joint's y by more than
0.015, and the curled flag exactly when it is below by more than 0.015,
where the PIP joints are the fixed indices 6, 10, 14, 18 (not the base
joints 5, 9, 13, 17). -/
theorem finger_flags_compare_pip_joints (lms : List Landmark) :
    ((calculateAdvancedFingerStates lms).indexExtended = true ↔
      (nth lms 8).y < (nth lms 6).y - 15/1000) ∧
    ((calculateAdvancedFingerStates lms).indexCurled = true ↔
      (nth lms 6).y + 15/1000 < (nth lms 8).y) ∧
    ((calculateAdvancedFingerStates lms).middleExtended = true ↔
      (nth lms 12).y < (nth lms 10).y - 15/1000) ∧
    ((calculateAdvancedFingerStates lms).middleCurled = true ↔
      (nth lms 10).y + 15/1000 < (nth lms 12).y) ∧
    ((calculateAdvancedFingerStates lms).ringExtended = true ↔
      (nth lms 16).y < (nth lms 14).y - 15/1000) ∧
    ((calculateAdvancedFingerStates lms).ringCurled = true ↔
      (nth lms 14).y + 15/1000 < (nth lms 16).y) ∧
    ((calculateAdvancedFingerStates lms).pinkyExtended = true ↔
      (nth lms 20).y < (nth lms 18).y - 15/1000) ∧
    ((calculateAdvancedFingerStates lms).pinkyCurled = true ↔
      (nth lms 18).y + 15/1000 < (nth lms 20).y) :=
  ⟨decide_eq_true_iff, decide_eq_true_iff, decide_eq_true_iff,
   decide_eq_true_iff, decide_eq_true_iff, decide_eq_true_iff,
   decide_eq_true_iff, decide_eq_true_iff⟩

/-- C8: whenever the primary classification yields a letter belonging to a
confusion group, the final (pre-stability) result is: the discriminator's
letter with the arithmetic mean of the two confidences and the
discriminator's method tag and group id, if the discriminator returns a
sub-case; and the primary result unchanged (same letter and confidence, no
method tag or group id set) if it does not. -/
theorem confusion_group_resolution (lms : List Landmark)
    (p : GestureClassificationResult)
    (hp : primaryClassification
      (calculateAdvancedFingerStates (normalizeLandmarks lms))
      (extractGeometricFeatures (normalizeLandmarks lms)) = some p)
    (hg : isInConfusionGroup p.primaryGesture = true) :
    (∀ sr, secondaryClassification p.primaryGesture
        (calculateAdvancedFingerStates (normalizeLandmarks lms))
        (extractGeometricFeatures (normalizeLandmarks lms)) = some sr →
      computeFinal lms = some ⟨sr.gesture, (p.confidence + sr.confidence) / 2,
        some sr.method, some sr.group, p.geometricFeatures, p.stabilityScore⟩) ∧
    (secondaryClassification p.primaryGesture
        (calculateAdvancedFingerStates (normalizeLandmarks lms))
        (extractGeometricFeatures (normalizeLandmarks lms)) = none →
      computeFinal lms = some p) := by
  constructor
  · intro sr hs
    rw [computeFinal_of_primary lms p hp, if_pos hg, hs]
  · intro hs
    rw [computeFinal_of_primary lms p hp, if_pos hg, hs]

theorem confusion_group_resolution_witness :
    primaryClassification (calculateAdvancedFingerStates (normalizeLandmarks fxD))
      (extractGeometricFeatures (normalizeLandmarks fxD)) = some pD ∧
    isInConfusionGroup pD.primaryGesture = true ∧
    secondaryClassification pD.primaryGesture
      (calculateAdvancedFingerStates (normalizeLandmarks fxD))
      (extractGeometricFeatures (normalizeLandmarks fxD)) = some srD ∧
    computeFinal fxD = some ⟨srD.gesture, (pD.confidence + srD.confidence) / 2,
      some srD.method, some srD.group, pD.geometricFeatures, pD.stabilityScore⟩ :=
  ⟨by decide, by decide, by decide,
   (confusion_group_resolution fxD pD (by decide) (by decide)).1 srD (by decide)⟩

/-- C10: every non-`none` result of `classifyGesture`, from any input and any
history state, carries a letter in {A, B, C, D, E, F, I}: the primary rules
only emit A–F, the R/U/K/T branches of the discriminators are unreachable
from a primary D (they need a middle-finger or index-finger state the D rule
excludes), and the S/M/N block is unreachable because no primary rule emits
S, M or N. -/
theorem result_letters_closed_set (lms : List Landmark) (s s2 : ClassifierState)
    (r : GestureClassificationResult) (h : classifyGesture lms s = (some r, s2)) :
    r.primaryGesture ∈ (["A", "B", "C", "D", "E", "F", "I"] : List String) := by
  by_cases h21 : lms.length = 21
  · cases hcf : computeFinal lms with
    | none =>
      unfold classifyGesture at h
      rw [hcf] at h
      simp [h21] at h
    | some fr =>
      rw [classify_step lms s fr h21 hcf] at h
      split_ifs at h with hg
      · have h1 := congrArg Prod.fst h
        simp only [Option.some.injEq] at h1
        rw [← h1]
        exact computeFinal_letter lms fr hcf
      · have h1 := congrArg Prod.fst h
        cases h1
  · unfold classifyGesture at h
    simp [h21] at h

theorem result_letters_closed_set_witness :
    classifyGesture fxB emptyState =
      (some ⟨"B", 9/10, none, none,
        extractGeometricFeatures (normalizeLandmarks fxB), 96/100⟩,
       ⟨["B"], [9/10]⟩) ∧
    (⟨"B", 9/10, none, none, extractGeometricFeatures (normalizeLandmarks fxB),
      96/100⟩ : GestureClassificationResult).primaryGesture ∈
      (["A", "B", "C", "D", "E", "F", "I"] : List String) :=
  ⟨by decide, result_letters_closed_set fxB emptyState ⟨["B"], [9/10]⟩ _ (by decide)⟩

/-- C5: translating all landmarks by a constant offset changes neither the
returned `ClassificationResult` (or `none`) nor the updated history: the
wrist shift and the bounding box shift cancel exactly in normalization, so
the whole call is unchanged (for 21-landmark inputs, and trivially for every
other length, where both calls return `none`). -/
theorem classify_translation_invariant (off : Landmark) (lms : List Landmark)
    (s : ClassifierState) :
    classifyGesture (translateLandmarks off lms) s = classifyGesture lms s := by
  cases lms with
  | nil => rfl
  | cons p0 rest =>
    have hlen : (translateLandmarks off (p0 :: rest)).length =
        (p0 :: rest).length := List.length_map _ _
    have hcf : computeFinal (translateLandmarks off (p0 :: rest)) =
        computeFinal (p0 :: rest) :=
      computeFinal_congr _ _ (normalize_translate off p0 rest)
    unfold classifyGesture
    rw [hlen, hcf]

/-- C4 counterexample: scaling only the x and y coordinates about the wrist
is not result-preserving.  On the D-pose fixture the classifier returns D
with confidence 0.90, but after scaling x and y by k = 18/7 > 0 the
normalized z of the thumb tip shrinks, the 3-D thumb distance drops from
0.06 to exactly 0.05, the D branch of the D/R/U discriminator no longer
fires, and the call returns I with confidence 0.89 — a different letter and
a different confidence. -/
theorem scale_xy_counterexample :
    (0 : ℚ) < 18/7 ∧
    (classifyGesture fxD emptyState).1.map
      (fun r => (r.primaryGesture, r.confidence)) = some ("D", 9/10) ∧
    (classifyGesture (scaleXYAboutWrist (18/7) fxD) emptyState).1.map
      (fun r => (r.primaryGesture, r.confidence)) = some ("I", 89/100) := by
  refine ⟨by norm_num, by decide, by decide⟩

/-- C4 (amended): scaling all three coordinates (x, y and z) of every
landmark by a constant factor k > 0 about the wrist leaves the entire call
unchanged — same result (or `none`) and same updated history.  Scaling only
x and y is not enough, because the z coordinates are divided by the
xy-bounding-box extent during normalization and feed the 3-D tip distances
used by the discriminators (see the counterexample). -/
theorem classify_scale_invariant (k : ℚ) (hk : 0 < k) (lms : List Landmark)
    (s : ClassifierState) :
    classifyGesture (scaleAboutWrist k lms) s = classifyGesture lms s := by
  cases lms with
  | nil => rfl
  | cons p0 rest =>
    have hlen : (scaleAboutWrist k (p0 :: rest)).length =
        (p0 :: rest).length := List.length_map _ _
    by_cases hdeg : scale0Of (p0 :: rest) = 0
    · have h2 : scale0Of (scaleAboutWrist k (p0 :: rest)) = 0 := by
        rw [scale0Of_scaleAboutWrist k hk.le p0 rest, hdeg, mul_zero]
      have h1 : computeFinal (p0 :: rest) = none :=
        computeFinal_none_of_degenerate p0 rest hdeg
      have h3 : computeFinal (scaleAboutWrist k (p0 :: rest)) = none := by
        have hconsform : scaleAboutWrist k (p0 :: rest) =
            (⟨p0.x + k * (p0.x - p0.x), p0.y + k * (p0.y - p0.y),
              p0.z + k * (p0.z - p0.z)⟩ : Landmark) ::
            rest.map (fun p => ⟨p0.x + k * (p.x - p0.x), p0.y + k * (p.y - p0.y),
              p0.z + k * (p.z - p0.z)⟩) := by
          rw [scaleAboutWrist_eq_map, List.map_cons]
        rw [hconsform]
        apply computeFinal_none_of_degenerate
        rw [← hconsform]
        exact h2
      unfold classifyGesture
      rw [hlen, h1, h3]
    · have hcf : computeFinal (scaleAboutWrist k (p0 :: rest)) =
          computeFinal (p0 :: rest) :=
        computeFinal_congr _ _ (normalize_scale k hk p0 rest hdeg)
      unfold classifyGesture
      rw [hlen, hcf]

theorem classify_scale_invariant_witness :
    (0 : ℚ) < 2 ∧
    classifyGesture (scaleAboutWrist 2 fxB) emptyState =
      classifyGesture fxB emptyState :=
  ⟨by norm_num, classify_scale_invariant 2 (by norm_num) fxB emptyState⟩

/-- C9: for every 21-landmark input on which some primary rule matches, a
freshly constructed classifier returns a non-`none` result on the very first
call: the single-entry history makes the consistency fraction 1 and every
reachable final confidence is at least 0.85, so the score is at least
0.6 + 0.4·0.85 = 0.94 > 0.85 — the stability gate never suppresses the
first frame. -/
theorem first_call_never_suppressed (lms : List Landmark)
    (h21 : lms.length = 21) (p : GestureClassificationResult)
    (hp : primaryClassification
      (calculateAdvancedFingerStates (normalizeLandmarks lms))
      (extractGeometricFeatures (normalizeLandmarks lms)) = some p) :
    (classifyGesture lms emptyState).1.isSome = true := by
  obtain ⟨fr, hcf⟩ := computeFinal_some_of_primary lms p hp
  have hb := computeFinal_conf_bounds lms fr hcf
  rw [classify_step lms emptyState fr h21 hcf]
  have hscore : gateScore emptyState fr = 6/10 + fr.confidence * (4/10) := by
    unfold gateScore
    rw [pushHistory_base]
    have h1 := stabilityScoreOf_replicate fr.primaryGesture fr.confidence 1
      one_pos
    simpa using h1
  rw [if_pos]
  · rfl
  · rw [hscore]
    unfold stabilityThreshold
    linarith [hb.1]

theorem first_call_never_suppressed_witness :
    fxB.length = 21 ∧
    primaryClassification (calculateAdvancedFingerStates (normalizeLandmarks fxB))
      (extractGeometricFeatures (normalizeLandmarks fxB)) = some rBfix ∧
    (classifyGesture fxB emptyState).1.isSome = true :=
  ⟨by decide, by decide,
   first_call_never_suppressed fxB (by decide) rBfix (by decide)⟩

/-- C7: feeding any fixture that satisfies the B rule predicate after
normalization (index, middle, ring and pinky extended, thumb not extended,
hand openness > 0.7) to a fresh classifier for six identical calls yields,
on the 5th and the 6th call, a non-`none` result with letter "B",
confidence 0.90 and a stability score above 0.85. -/
theorem b_pose_fifth_and_sixth_calls (f : List Landmark) (h21 : f.length = 21)
    (hIE : (calculateAdvancedFingerStates (normalizeLandmarks f)).indexExtended = true)
    (hME : (calculateAdvancedFingerStates (normalizeLandmarks f)).middleExtended = true)
    (hRE : (calculateAdvancedFingerStates (normalizeLandmarks f)).ringExtended = true)
    (hPE : (calculateAdvancedFingerStates (normalizeLandmarks f)).pinkyExtended = true)
    (hTE : (calculateAdvancedFingerStates (normalizeLandmarks f)).thumbExtended = false)
    (hOp : 7/10 < (calculateAdvancedFingerStates (normalizeLandmarks f)).handOpenness) :
    (∃ r5, (classifyGesture f (altState f f 4)).1 = some r5 ∧
      r5.primaryGesture = "B" ∧ r5.confidence = 90/100 ∧
      stabilityThreshold < r5.stabilityScore) ∧
    (∃ r6, (classifyGesture f (altState f f 5)).1 = some r6 ∧
      r6.primaryGesture = "B" ∧ r6.confidence = 90/100 ∧
      stabilityThreshold < r6.stabilityScore) := by
  have hcf := computeFinal_b_rule f hIE hME hRE hPE hTE hOp
  have hcall : ∀ m : ℕ, m + 1 ≤ historySize →
      ∃ r, (classifyGesture f (altState f f m)).1 = some r ∧
        r.primaryGesture = "B" ∧ r.confidence = 90/100 ∧
        stabilityThreshold < r.stabilityScore := by
    intro m hm
    rw [altState_const f _ h21 hcf m (by omega),
      classify_step f _ _ h21 hcf]
    have hsc : gateScore
        (⟨List.replicate m (⟨"B", 90/100, none, none,
            extractGeometricFeatures (normalizeLandmarks f), 0⟩ :
            GestureClassificationResult).primaryGesture,
          List.replicate m (⟨"B", 90/100, none, none,
            extractGeometricFeatures (normalizeLandmarks f), 0⟩ :
            GestureClassificationResult).confidence⟩ : ClassifierState)
        ⟨"B", 90/100, none, none,
          extractGeometricFeatures (normalizeLandmarks f), 0⟩ = 96/100 := by
      unfold gateScore
      rw [pushHistory_replicate _ _ m hm]
      rw [stabilityScoreOf_replicate _ _ (m+1) (by omega)]
      show (6/10 + (90/100) * (4/10) : ℚ) = 96/100
      norm_num
    rw [if_pos (by rw [hsc]; decide)]
    refine ⟨_, rfl, rfl, rfl, ?_⟩
    show stabilityThreshold < gateScore _ _
    rw [hsc]
    decide
  exact ⟨hcall 4 (by decide), hcall 5 (by decide)⟩

theorem b_pose_fifth_and_sixth_calls_witness :
    fxB.length = 21 ∧
    (calculateAdvancedFingerStates (normalizeLandmarks fxB)).indexExtended = true ∧
    (calculateAdvancedFingerStates (normalizeLandmarks fxB)).middleExtended = true ∧
    (calculateAdvancedFingerStates (normalizeLandmarks fxB)).ringExtended = true ∧
    (calculateAdvancedFingerStates (normalizeLandmarks fxB)).pinkyExtended = true ∧
    (calculateAdvancedFingerStates (normalizeLandmarks fxB)).thumbExtended = false ∧
    (7/10 < (calculateAdvancedFingerStates (normalizeLandmarks fxB)).handOpenness) ∧
    ((∃ r5, (classifyGesture fxB (altState fxB fxB 4)).1 = some r5 ∧
      r5.primaryGesture = "B" ∧ r5.confidence = 90/100 ∧
      stabilityThreshold < r5.stabilityScore) ∧
    (∃ r6, (classifyGesture fxB (altState fxB fxB 5)).1 = some r6 ∧
      r6.primaryGesture = "B" ∧ r6.confidence = 90/100 ∧
      stabilityThreshold < r6.stabilityScore)) :=
  ⟨by decide, by decide, by decide, by decide, by decide, by decide, by decide,
   b_pose_fifth_and_sixth_calls fxB (by decide) (by decide) (by decide)
     (by decide) (by decide) (by decide) (by decide)⟩

/-- C3 counterexample: with two fixtures matching two distinct primary rules
(B and A) fed in strict alternation to a fresh classifier, it is not the
case that every call returns `none`: the very first call of the alternating
run already returns a result, because a one-entry history has consistency 1
and the score 0.6 + 0.4·0.9 = 0.96 clears the gate. -/
theorem alternation_counterexample :
    (computeFinal fxB).map (fun r => r.primaryGesture) = some "B" ∧
    (computeFinal fxA).map (fun r => r.primaryGesture) = some "A" ∧
    (classifyGesture (altInput fxB fxA 0) (altState fxB fxA 0)).1 ≠ none := by
  refine ⟨by decide, by decide, by decide⟩

/-- C3 (amended): with two 21-landmark fixtures whose (pre-stability) final
results carry distinct letters fed in strict alternation to a fresh
classifier, every call from the second one onward returns `none`: the
previous, different letter always sits in the 5-frame window, capping the
consistency at 4/5 and the score at 0.6·(4/5) + 0.4·0.92 = 0.848 ≤ 0.85.
Only the first call (one-entry history, consistency 1) returns a result. -/
theorem alternating_calls_none_after_first (f g : List Landmark)
    (rf rg : GestureClassificationResult) (hf21 : f.length = 21)
    (hg21 : g.length = 21) (hcf : computeFinal f = some rf)
    (hcg : computeFinal g = some rg)
    (hne : rf.primaryGesture ≠ rg.primaryGesture) :
    ∀ n, 1 ≤ n → (classifyGesture (altInput f g n) (altState f g n)).1 = none := by
  have hconf_f := computeFinal_conf_bounds f rf hcf
  have hconf_g := computeFinal_conf_bounds g rg hcg
  have key : ∀ m, ∃ l, (altState f g (m+1)).gestureHistory =
      l ++ [if m % 2 = 0 then rf.primaryGesture else rg.primaryGesture] ∧
      (altState f g (m+1)).confidenceHistory.length =
        (altState f g (m+1)).gestureHistory.length ∧
      (∀ x ∈ (altState f g (m+1)).confidenceHistory, x ≤ 92/100) := by
    intro m
    induction m with
    | zero =>
      have hst : altState f g 1 = ⟨[rf.primaryGesture], [rf.confidence]⟩ := by
        show (classifyGesture (altInput f g 0) (altState f g 0)).2 = _
        have hin : altInput f g 0 = f := by unfold altInput; norm_num
        rw [hin]
        show (classifyGesture f emptyState).2 = _
        rw [classify_step f emptyState rf hf21 hcf]
        exact pushHistory_base _ _
      rw [hst]
      refine ⟨[], by simp, by simp, ?_⟩
      intro x hx
      simp only [List.mem_singleton] at hx
      rw [hx]
      exact hconf_f.2
    | succ m ih =>
      obtain ⟨l, hgh, hlen, hconf⟩ := ih
      have hstep : altState f g (m+2) =
          pushHistory (altState f g (m+1))
            (if (m+1) % 2 = 0 then rf.primaryGesture else rg.primaryGesture)
            (if (m+1) % 2 = 0 then rf.confidence else rg.confidence) := by
        show (classifyGesture (altInput f g (m+1)) (altState f g (m+1))).2 = _
        unfold altInput
        by_cases hpar : (m+1) % 2 = 0
        · rw [if_pos hpar, if_pos hpar, if_pos hpar,
            classify_step f _ rf hf21 hcf]
        · rw [if_neg hpar, if_neg hpar, if_neg hpar,
            classify_step g _ rg hg21 hcg]
      have hc2 : (if (m+1) % 2 = 0 then rf.confidence else rg.confidence) ≤
          92/100 := by
        split_ifs
        · exact hconf_f.2
        · exact hconf_g.2
      obtain ⟨l2, ch2, heq, hlen2, hconf2⟩ :=
        pushHistory_invariant (altState f g (m+1)) _ _ l _ hgh hlen hconf hc2
      refine ⟨l2 ++ [if m % 2 = 0 then rf.primaryGesture else rg.primaryGesture],
        ?_, ?_, ?_⟩
      · rw [hstep, heq]
        simp
      · rw [hstep, heq]
        simp only [List.length_append, List.length_cons, List.length_nil]
        omega
      · rw [hstep, heq]
        exact hconf2
  intro n hn
  obtain ⟨m, rfl⟩ : ∃ m, n = m + 1 := ⟨n - 1, by omega⟩
  obtain ⟨l, hgh, hlen, hconf⟩ := key m
  by_cases hpar : (m+1) % 2 = 0
  · have hin : altInput f g (m+1) = f := by unfold altInput; rw [if_pos hpar]
    rw [hin, classify_step f _ rf hf21 hcf]
    have hprev_ne : (if m % 2 = 0 then rf.primaryGesture else rg.primaryGesture)
        ≠ rf.primaryGesture := by
      rw [if_neg (by omega : ¬ m % 2 = 0)]
      exact hne.symm
    obtain ⟨l2, ch2, heq, hlen2, hconf2⟩ :=
      pushHistory_invariant (altState f g (m+1)) rf.primaryGesture rf.confidence
        l _ hgh hlen hconf hconf_f.2
    have hgatefail : ¬ (stabilityThreshold <
        gateScore (altState f g (m+1)) rf) := by
      unfold gateScore stabilityThreshold
      rw [heq]
      have hb := stabilityScoreOf_le_of_prev_ne l2 _ rf.primaryGesture ch2
        hprev_ne hlen2 hconf2
      linarith
    rw [if_neg hgatefail]
  · have hin : altInput f g (m+1) = g := by unfold altInput; rw [if_neg hpar]
    rw [hin, classify_step g _ rg hg21 hcg]
    have hprev_ne : (if m % 2 = 0 then rf.primaryGesture else rg.primaryGesture)
        ≠ rg.primaryGesture := by
      rw [if_pos (by omega : m % 2 = 0)]
      exact hne
    obtain ⟨l2, ch2, heq, hlen2, hconf2⟩ :=
      pushHistory_invariant (altState f g (m+1)) rg.primaryGesture rg.confidence
        l _ hgh hlen hconf hconf_g.2
    have hgatefail : ¬ (stabilityThreshold <
        gateScore (altState f g (m+1)) rg) := by
      unfold gateScore stabilityThreshold
      rw [heq]
      have hb := stabilityScoreOf_le_of_prev_ne l2 _ rg.primaryGesture ch2
        hprev_ne hlen2 hconf2
      linarith
    rw [if_neg hgatefail]

theorem alternating_calls_none_after_first_witness :
    fxB.length = 21 ∧ fxA.length = 21 ∧
    computeFinal fxB = some rBfix ∧ computeFinal fxA = some rAfix ∧
    rBfix.primaryGesture ≠ rAfix.primaryGesture ∧ (1 : ℕ) ≤ 1 ∧
    (classifyGesture (altInput fxB fxA 1) (altState fxB fxA 1)).1 = none :=
  ⟨by decide, by decide, by decide, by decide, by decide, le_refl 1,
   alternating_calls_none_after_first fxB fxA rBfix rAfix (by decide)
     (by decide) (by decide) (by decide) (by decide) 1 (le_refl 1)⟩
